import Mathlib

set_option maxHeartbeats 1000000

/- Verification development for `universal_game_tester.py` (silasary/kmk_tools).

   The file shallowly embeds the parts of the tester that the specification
   talks about: the weighted objective sampler (`generate_dynamic_objectives`),
   the implementation analyzer (`analyze_implementation`), the option schema
   synthesizer (`create_smart_options`), and the primary-class selection in
   `load_game_from_file`.  Dynamic Python values inspected by those code paths
   are modelled by the inductive `PyVal`; randomness (`random.choice`) is
   modelled by an explicit oracle `g : Nat → Nat` together with a position
   counter that is advanced once per draw, the draw from a list `l` being
   `l.getD (g pos % l.length)`. -/

namespace KmkTools

/- ### Python runtime values

   `vCallable name r` models a zero-argument callable (the only arity the
   tester ever invokes): `r = some v` means calling it returns `v`,
   `r = none` means calling it raises.  `vGen xs` models an exhaustible
   iterator (`__next__` but no `__getitem__`) yielding `xs`.  `vOpt v` models
   an instance of an option class exposing a `value` attribute, as produced
   by the mock option classes; the analyzer's category scan tests for that
   attribute.  `vSet` carries its elements as a (deduplicated) list; no
   theorem below depends on the iteration order of a set. -/
inductive PyVal : Type where
  | vNone : PyVal
  | vBool : Bool → PyVal
  | vInt : Int → PyVal
  | vStr : String → PyVal
  | vList : List PyVal → PyVal
  | vTuple : List PyVal → PyVal
  | vSet : List PyVal → PyVal
  | vGen : List PyVal → PyVal
  | vCallable : String → Option PyVal → PyVal
  | vOpt : PyVal → PyVal

/- ### Python string primitives used by the tester -/

/-- Core of CPython `str.replace` for a non-empty pattern `p0 :: ps`:
replace leftmost non-overlapping occurrences, scanning left to right.
`fuel` only bounds the recursion (it is always called with
`fuel = s.length`, which suffices because every step consumes at least one
character); it keeps the recursion structural so that applications to
concrete strings reduce definitionally. -/
def replaceCoreF (p0 : Char) (ps rep : List Char) : Nat → List Char → List Char
  | 0, s => s
  | _ + 1, [] => []
  | fuel + 1, c :: rest =>
    if p0 = c ∧ List.isPrefixOf ps rest then
      rep ++ replaceCoreF p0 ps rep fuel (rest.drop ps.length)
    else
      c :: replaceCoreF p0 ps rep fuel rest

/-- Python `s.replace(pat, rep)` (all occurrences).  For an empty pattern
CPython inserts the replacement before every character and at the end. -/
def pyReplace (s pat rep : String) : String :=
  match pat.data with
  | [] => ⟨rep.data ++ s.data.flatMap (fun c => c :: rep.data)⟩
  | p :: ps => ⟨replaceCoreF p ps rep.data s.data.length s.data⟩

def containsAux (pat : List Char) : List Char → Bool
  | [] => pat.isEmpty
  | c :: rest => List.isPrefixOf pat (c :: rest) || containsAux pat rest

/-- Python substring test `pat in hay`. -/
def strContains (hay pat : String) : Bool := containsAux pat.data hay.data

/-- Python `s.lower()`, restricted to ASCII casing (every name the tester
lowercases is ASCII). -/
def pyLower (s : String) : String := ⟨s.data.map Char.toLower⟩

/-- Python `s.startswith(pre)`. -/
def pyStartsWith (s pre : String) : Bool := List.isPrefixOf pre.data s.data

/-- Python `s.endswith(suf)`. -/
def pyEndsWith (s suf : String) : Bool := List.isSuffixOf suf.data s.data

/-- Python `s[:n]` for `n ≥ 0`. -/
def pyTake (s : String) (n : Nat) : String := ⟨s.data.take n⟩

mutual
/-- Python `repr` on the modelled value shapes.  String repr is modelled
without escape processing (no theorem uses strings needing escapes); the
reprs of generators, functions and option objects — which CPython renders
with memory addresses — are fixed placeholder strings and are never relied
on by any theorem. -/
def pyRepr : PyVal → String
  | .vNone => "None"
  | .vBool b => if b then "True" else "False"
  | .vInt n => toString n
  | .vStr s => "'" ++ s ++ "'"
  | .vList xs => "[" ++ pyReprJoin xs ++ "]"
  | .vTuple [x] => "(" ++ pyRepr x ++ ",)"
  | .vTuple xs => "(" ++ pyReprJoin xs ++ ")"
  | .vSet [] => "set()"
  | .vSet xs => "\x7b" ++ pyReprJoin xs ++ "\x7d"
  | .vGen _ => "<generator object>"
  | .vCallable n _ => "<function " ++ n ++ ">"
  | .vOpt _ => "<option object>"

def pyReprJoin : List PyVal → String
  | [] => ""
  | [x] => pyRepr x
  | x :: xs => pyRepr x ++ ", " ++ pyReprJoin xs
end

/-- Python `str(v)`: identity on strings, `repr` otherwise (for the shapes
modelled here). -/
def pyStr : PyVal → String
  | .vStr s => s
  | v => pyRepr v

/-- Python `type(v).__name__` for the modelled shapes. -/
def pyTypeName : PyVal → String
  | .vNone => "NoneType"
  | .vBool _ => "bool"
  | .vInt _ => "int"
  | .vStr _ => "str"
  | .vList _ => "list"
  | .vTuple _ => "tuple"
  | .vSet _ => "set"
  | .vGen _ => "generator"
  | .vCallable _ _ => "function"
  | .vOpt _ => "UniversalOption"

def pyCallable : PyVal → Bool
  | .vCallable _ _ => true
  | _ => false

/-- Python `hasattr(v, "__iter__")`. -/
def pyHasIter : PyVal → Bool
  | .vStr _ | .vList _ | .vTuple _ | .vSet _ | .vGen _ => true
  | _ => false

def pyIsStr : PyVal → Bool
  | .vStr _ => true
  | _ => false

/-- Python `hasattr(v, "__getitem__")`. -/
def pyHasGetitem : PyVal → Bool
  | .vStr _ | .vList _ | .vTuple _ => true
  | _ => false

/-- Python `hasattr(v, "__next__")`. -/
def pyHasNext : PyVal → Bool
  | .vGen _ => true
  | _ => false

/-- Python `len(v)` for the sized shapes (only called on them by the embedded code). -/
def pyLen : PyVal → Nat
  | .vStr s => s.length
  | .vList xs | .vTuple xs | .vSet xs => xs.length
  | _ => 0

/-- Python `list(v)` on the iterables the sampler can reach. -/
def pyToList : PyVal → List PyVal
  | .vList xs | .vTuple xs | .vSet xs | .vGen xs => xs
  | .vStr s => s.data.map (fun c => .vStr (String.singleton c))
  | v => [v]

/- ### Objective templates and sampler records
   (`GameObjectiveTemplate`, universal_game_tester.py lines 137-143, and the
   record dict built at lines 760-770).

   `label` and `data` are taken to be present with their documented types
   (a string label and a dict with string keys); `weight` is kept fully
   dynamic (`none` models an absent attribute) because the code defends
   against it (`getattr(template, "weight", 1)` and `range(weight)`). -/
structure PyTemplate where
  label : String
  data : List (String × PyVal)
  weight : Option PyVal
  is_time_consuming : Bool
  is_difficult : Bool

structure ObjRecord where
  label : String
  weight : PyVal
  time_consuming : Bool
  difficult : Bool
  original_label : String
  data_complexity : Nat
  selection_weight : PyVal

/-- Number of pool copies contributed by one template
(lines 692-700): `weight = getattr(template, "weight", 1)` followed by
`for _ in range(weight)`.  `range` of a negative int is empty, `range` of a
bool uses its int value, and `range` of anything else raises `TypeError`,
which the surrounding `except` turns into `continue` (zero copies). -/
def weightCopies (t : PyTemplate) : Nat :=
  match t.weight.getD (.vInt 1) with
  | .vInt n => n.toNat
  | .vBool b => if b then 1 else 0
  | _ => 0

/-- The weighted pool, with each entry tagged by the index of its template
in the template list; the index models CPython object identity (`id`),
which the loop uses for its recently-used set. -/
def buildPoolFrom (n : Nat) : List PyTemplate → List (Nat × PyTemplate)
  | [] => []
  | t :: ts => List.replicate (weightCopies t) (n, t) ++ buildPoolFrom (n + 1) ts

def buildPool (ts : List PyTemplate) : List (Nat × PyTemplate) := buildPoolFrom 0 ts

/-- Evaluation of `values = data_source()` down to one substitution value
(lines 738-749).  Never fails: the empty and non-indexable cases fall back
to `str(values)` or to the literal `"VALUE"`. -/
def evalValue (g : Nat → Nat) (pos : Nat) (values : PyVal) : Nat × Option PyVal :=
  if pyHasIter values && !(pyIsStr values) then
    if pyHasGetitem values && decide (0 < pyLen values) then
      let lst := pyToList values
      (pos + 1, some (lst.getD (g pos % lst.length) .vNone))
    else if pyHasNext values then
      let lst := pyToList values
      if lst.isEmpty then (pos, some (.vStr "VALUE"))
      else (pos + 1, some (lst.getD (g pos % lst.length) .vNone))
    else (pos, some (.vStr (pyStr values)))
  else (pos, some (.vStr (pyStr values)))

/-- The extraction `data_info[0]` when `data_info` is a list or tuple of length ≥ 1,
else `data_info` itself (lines 732-735). -/
def dataSourceOf : PyVal → PyVal
  | .vList (x :: _) => x
  | .vTuple (x :: _) => x
  | v => v

/-- One placeholder evaluation (lines 730-751).  Returns `none` exactly when
the Python `try` body raises, i.e. when the data source is a callable that
raises. -/
def evalPlaceholder (g : Nat → Nat) (pos : Nat) (di : PyVal) : Nat × Option PyVal :=
  match dataSourceOf di with
  | .vCallable _ res =>
    match res with
    | none => (pos, none)
    | some values => evalValue g pos values
  | ds => (pos, some (.vStr (pyStr ds)))

/-- The placeholder substitution loop over the template's data dict
(lines 729-757): each key is processed in mapping order with
`populated_label = populated_label.replace(placeholder, str(value))`;
the first raising placeholder aborts the whole template (`break` with
`populated_successfully = False`, modelled by `none`). -/
def substData (g : Nat → Nat) : Nat → String → List (String × PyVal) → Nat × Option String
  | pos, label, [] => (pos, some label)
  | pos, label, (ph, di) :: rest =>
    match evalPlaceholder g pos di with
    | (pos', none) => (pos', none)
    | (pos', some v) => substData g pos' (pyReplace label ph (pyStr v)) rest

/-- The record dict appended at lines 760-770. -/
def mkRecord (t : PyTemplate) (lbl : String) : ObjRecord :=
  { label := lbl
    weight := t.weight.getD (.vInt 1)
    time_consuming := t.is_time_consuming
    difficult := t.is_difficult
    original_label := t.label
    data_complexity := t.data.length
    selection_weight := t.weight.getD (.vInt 1) }

def dummyTemplate : PyTemplate := ⟨"", [], none, false, false⟩

/-- The `while` loop of `generate_dynamic_objectives` (lines 711-777).
`fuel` is the remaining attempt budget (`max_attempts - attempts`), so the
loop terminates by construction exactly as the Python loop is bounded by
`attempts < max_attempts`.  The second component of the result is the final
value of the `attempts` counter.  The `getD` default is unreachable: the
caller only enters the loop with a non-empty pool, and the draw index is
reduced `mod pool.length`. -/
def loopGen (g : Nat → Nat) (tsLen : Nat) (pool : List (Nat × PyTemplate)) (count : Nat) :
    Nat → Nat → List Nat → List ObjRecord → Nat → List ObjRecord × Nat
  | 0, _pos, _used, selected, attempts => (selected, attempts)
  | fuel + 1, pos, used, selected, attempts =>
    if selected.length < count then
      let e := pool.getD (g pos % pool.length) (0, dummyTemplate)
      let pos1 := pos + 1
      if e.1 ∈ used ∧ used.length < tsLen then
        loopGen g tsLen pool count fuel pos1 used selected (attempts + 1)
      else
        match substData g pos1 e.2.label e.2.data with
        | (pos2, none) => loopGen g tsLen pool count fuel pos2 used selected (attempts + 1)
        | (pos2, some lbl) =>
          let used1 := if e.1 ∈ used then used else e.1 :: used
          let used2 := if min tsLen (count / 2) ≤ used1.length then [] else used1
          loopGen g tsLen pool count fuel pos2 used2 (selected ++ [mkRecord e.2 lbl]) (attempts + 1)
    else (selected, attempts)

/-- The sampler `generate_dynamic_objectives` (lines 677-782) together with the final
value of its `attempts` counter.  The early returns for an empty template
list (line 687) and an empty pool (line 702) happen before the counter is
used, so the counter is 0 there. -/
def generateStats (g : Nat → Nat) (templates : List PyTemplate) (count : Nat) :
    List ObjRecord × Nat :=
  if templates.isEmpty then ([], 0)
  else
    let pool := buildPool templates
    if pool.isEmpty then ([], 0)
    else loopGen g templates.length pool count (count * 10) 0 [] [] 0

/-- The list of populated objective records returned by
`generate_dynamic_objectives`. -/
def generate_dynamic_objectives (g : Nat → Nat) (templates : List PyTemplate)
    (count : Nat) : List ObjRecord :=
  (generateStats g templates count).1

/- ### Python value equality (used as the dict-key equality of the weight
   histogram).  Only its executability matters to the embedding; no claim
   depends on its semantics. -/

mutual
def pyValBeq : PyVal → PyVal → Bool
  | .vNone, .vNone => true
  | .vBool a, .vBool b => a == b
  | .vInt a, .vInt b => a == b
  | .vStr a, .vStr b => a == b
  | .vList a, .vList b => pyValListBeq a b
  | .vTuple a, .vTuple b => pyValListBeq a b
  | .vSet a, .vSet b => pyValListBeq a b
  | .vGen a, .vGen b => pyValListBeq a b
  | .vCallable n r, .vCallable n' r' => n == n' && pyValOptBeq r r'
  | .vOpt a, .vOpt b => pyValBeq a b
  | _, _ => false

def pyValListBeq : List PyVal → List PyVal → Bool
  | [], [] => true
  | a :: as, b :: bs => pyValBeq a b && pyValListBeq as bs
  | _, _ => false

def pyValOptBeq : Option PyVal → Option PyVal → Bool
  | none, none => true
  | some a, some b => pyValBeq a b
  | _, _ => false
end

/-- Python `set(xs)` built from a list: keeps distinct elements.  Iteration
order of CPython sets is not modelled; first-occurrence order is used and no
theorem depends on it. -/
def pyDedupAux : List PyVal → List PyVal → List PyVal
  | acc, [] => acc.reverse
  | acc, x :: xs =>
    if acc.any (fun y => pyValBeq y x) then pyDedupAux acc xs
    else pyDedupAux (x :: acc) xs

def pyDedup (xs : List PyVal) : List PyVal := pyDedupAux [] xs

/- ### The analyzer (`analyze_implementation`, lines 588-674)

   A game instance is modelled by what the analyzer inspects: the template
   list returned by `game_objective_templates()`, the public attribute
   listing of `dir(game_instance)` with the attribute values, and the
   public attributes of `archipelago_options` (`none` models both a missing
   attribute and a falsy options object, which the code skips alike). -/

structure GameInstance where
  templates : List PyTemplate
  attrs : List (String × PyVal)
  archipelago_options : Option (List (String × PyVal))

/-- The per-attribute `elif` chain of the feature/special-method scan
(lines 625-641): `inl` is a feature tag, `inr` a special method name. -/
def classifyAttr (name : String) (v : PyVal) : Option (String ⊕ String) :=
  if pyStartsWith name "_" then none
  else
    let lower := pyLower name
    if strContains lower "relationship" then some (.inl "Relationship System")
    else if strContains lower "preferred" then some (.inl "Dynamic Preferences")
    else if strContains lower "difficulty" then some (.inl "Difficulty Scaling")
    else if strContains lower "cursed" then some (.inl "Cursed/Challenge Mode")
    else if pyCallable v && pyEndsWith name "_templates" then some (.inr name)
    else none

/-- The feature list exactly as accumulated by the scan — duplicates
included; the code deduplicates only after the complexity score is
computed. -/
def rawFeatures (gi : GameInstance) : List String :=
  gi.attrs.filterMap fun p =>
    match classifyAttr p.1 p.2 with
    | some (.inl f) => some f
    | _ => none

def specialMethodsOf (gi : GameInstance) : List String :=
  gi.attrs.filterMap fun p =>
    match classifyAttr p.1 p.2 with
    | some (.inr m) => some m
    | _ => none

/-- Identifier recorded for a data source (lines 615-618):
`data_source.__name__` for callables, else `str(type(data_source).__name__)`. -/
def dataSourceId : PyVal → String
  | .vCallable n _ => n
  | v => pyTypeName v

/-- Identifiers contributed by one template (lines 610-620): only entries
whose `data_info` is a list or tuple with `len >= 1` contribute, via their
first element. -/
def templateSourceIds (t : PyTemplate) : List String :=
  t.data.filterMap fun p =>
    match p.2 with
    | .vList (x :: _) => some (dataSourceId x)
    | .vTuple (x :: _) => some (dataSourceId x)
    | _ => none

/-- The `data_sources` set of the analysis, modelled as the list of distinct
identifiers in first-occurrence order (CPython set order is not modelled and
no theorem depends on the order). -/
def dataSourceIds (ts : List PyTemplate) : List String :=
  (ts.flatMap templateSourceIds).dedup

/-- One weight-histogram update:
`analysis["weight_distribution"][w] = analysis["weight_distribution"].get(w, 0) + 1`. -/
def histAdd : List (PyVal × Nat) → PyVal → List (PyVal × Nat)
  | [], k => [(k, 1)]
  | (k', n) :: rest, k =>
    if pyValBeq k' k then (k', n + 1) :: rest else (k', n) :: histAdd rest k

/-- Python `s.title()` restricted to ASCII-style casing: an alphabetic
character is uppercased when the previous character is not alphabetic and
lowercased otherwise. -/
def pyTitleAux : Bool → List Char → List Char
  | _, [] => []
  | prev, c :: rest =>
    (if c.isAlpha then (if prev then c.toLower else c.toUpper) else c) ::
      pyTitleAux c.isAlpha rest

def pyTitle (s : String) : String := ⟨pyTitleAux false s.data⟩

/-- The category string built for one qualifying option attribute
(lines 653-655): `attr_name.replace("_", " ").title()`, truncated to 10
characters plus `"..."` when longer than 10. -/
def categoryOf (name : String) : String :=
  let category := pyTitle (pyReplace name "_" " ")
  if 10 < category.length then (pyTake category 10) ++ "..." else category

/-- Python `hasattr(attr_value, "value")`: true exactly for option instances. -/
def hasValueAttr : PyVal → Bool
  | .vOpt _ => true
  | _ => false

/-- The option-category scan (lines 644-660): public attributes of the
options object exposing a `value` slot, each contributing one category
string — duplicates are kept (the code appends to a list). -/
def categoriesOf (gi : GameInstance) : List String :=
  match gi.archipelago_options with
  | none => []
  | some opts => opts.filterMap fun p =>
      if pyStartsWith p.1 "_" then none
      else if hasValueAttr p.2 then some (categoryOf p.1) else none

structure AnalysisReport where
  total_objectives : Nat
  weight_distribution : List (PyVal × Nat)
  features : List String
  categories : List String
  special_methods : List String
  data_sources : List String
  complexity_score : Nat

/-- The analyzer `analyze_implementation` (lines 588-674).  The complexity score (line
663) is computed from the feature list before deduplication; the `features`
field of the returned report is deduplicated afterwards (line 666). -/
def analyze_implementation (gi : GameInstance) : AnalysisReport :=
  { total_objectives := gi.templates.length
    weight_distribution :=
      gi.templates.foldl (fun h t => histAdd h (t.weight.getD (.vInt 1))) []
    features := (rawFeatures gi).dedup
    categories := categoriesOf gi
    special_methods := specialMethodsOf gi
    data_sources := dataSourceIds gi.templates
    complexity_score := gi.templates.length + (dataSourceIds gi.templates).length * 2
      + (rawFeatures gi).length * 3 + (categoriesOf gi).length }

/- ### The option schema synthesizer (`create_smart_options`, lines 453-585)

   A resolved field type is modelled by the attributes the synthesizer
   inspects: its `__name__`, optional `range_start`/`range_end`/`default`
   attributes, its `dir()` listing (for the `option_` scan of the Choice
   branch, in `dir`'s alphabetical order), and its constructor behaviour
   (`construct v = none` models `field_type(v)` raising).  The mock option
   kinds (`Toggle`, `Choice`, `Range`, `OptionSet`, ...) are modelled by
   `OptValue`; the invocation is modelled as in `test_implementation`, where
   every mock class argument is passed (so the truthiness guards such as
   `and OptionSet` hold). -/

structure FieldType where
  name : String
  range_start : Option Int
  range_end : Option Int
  default : Option PyVal
  attrs : List (String × PyVal)
  construct : PyVal → Option PyVal

/-- The mock option instances: `toggle`, `choice`, `range start stop value`
(the mock `Range(start, end, 1)` stores `start`, `stop` and a `value`),
`optionSet`, `defaultOnToggle`, `percentageRange`, `namedRange`,
`optionList`, and `custom v` for a successfully constructed instance of the
plugin's own class. -/
inductive OptValue where
  | toggle : Bool → OptValue
  | choice : PyVal → OptValue
  | range : Int → Int → PyVal → OptValue
  | optionSet : List PyVal → OptValue
  | defaultOnToggle : Bool → OptValue
  | percentageRange : PyVal → OptValue
  | namedRange : PyVal → OptValue
  | optionList : List PyVal → OptValue
  | custom : PyVal → OptValue

/-- The per-field branch chain of `create_smart_options` (lines 478-577) for
a resolved type exposing `__name__`.  Second component: warnings printed on
the way (modelled without the interpolated exception text).  In the model
the only operations that can raise inside the two `try` bodies are the
`field_type(...)` constructor calls, so those `except` arms are the only
reachable fallbacks. -/
def createFieldOption (ft : FieldType) : OptValue × List String :=
  let tn := ft.name
  if strContains tn "Toggle" then (.toggle true, [])
  else if strContains tn "Choice" then
    match ft.default with
    | some d => (.choice d, [])
    | none =>
      match ft.attrs.find? (fun p => pyStartsWith p.1 "option_") with
      | some p => (.choice p.2, [])
      | none => (.choice (.vStr "default"), [])
  else if strContains tn "Range" then
    -- Range branch (lines 496-508): Range(start, end, 1) stores
    -- value = (start + stop) // 2, overwritten by the declared default.
    let start := ft.range_start.getD 1
    let stop := ft.range_end.getD 10
    (.range start stop
      (match ft.default with
       | some d => d
       | none => .vInt (Int.fdiv (start + stop) 2)), [])
  else if strContains tn "OptionSet" then (.optionSet [], [])
  else if strContains tn "DefaultOnToggle" then (.defaultOnToggle true, [])
  else if strContains tn "PercentageRange" then (.percentageRange (.vInt 50), [])
  else if strContains tn "NamedRange" then (.namedRange (.vInt 1), [])
  else if strContains tn "OptionList" then (.optionList [], [])
  else
    match ft.default with
    | some d =>
      -- custom option class with a `default` (lines 519-556)
      match ft.range_start, ft.range_end with
      | some s, some e => (.range s e d, [])
      | _, _ =>
        -- the `except` arm (lines 548-556) re-checks the bounds as the code
        -- does, although on this path they can no longer both be present
        let fallback : OptValue × List String :=
          (match ft.range_start, ft.range_end with
           | some s, some e => .range s e (.vInt (Int.fdiv (s + e) 2))
           | _, _ => .optionSet [.vStr "default"],
           ["Warning: Could not create " ++ tn ++ " with default value"])
        let finish : Option PyVal → OptValue × List String := fun res =>
          match res with
          | some v => (.custom v, [])
          | none => fallback
        match d with
        | .vList xs => finish (ft.construct (.vSet (pyDedup xs)))
        | .vTuple xs => finish (ft.construct (.vSet (pyDedup xs)))
        | .vSet xs => finish (ft.construct (.vSet xs))
        | .vInt n =>
          if strContains (pyLower tn) "percentage" then (.percentageRange (.vInt n), [])
          else if strContains (pyLower tn) "namedrange" then (.namedRange (.vInt n), [])
          else (.range 1 100 (.vInt n), [])
        | .vBool b =>
          -- a Python bool is an int, so it takes the numeric-default path
          if strContains (pyLower tn) "percentage" then (.percentageRange (.vBool b), [])
          else if strContains (pyLower tn) "namedrange" then (.namedRange (.vBool b), [])
          else (.range 1 100 (.vBool b), [])
        | _ => finish (ft.construct (.vSet [d]))
    | none =>
      -- generic fallback (lines 558-577)
      let lower := pyLower tn
      let arg : PyVal :=
        if strContains lower "selection" then .vSet [.vStr "default_option"]
        else if strContains lower "actions" then .vSet [.vStr "default_action"]
        else if strContains lower "range" then .vInt 50
        else if strContains lower "toggle" then .vBool true
        else .vSet [.vStr "default"]
      match ft.construct arg with
      | some v => (.custom v, [])
      | none =>
        (.toggle true,
         ["Warning: Could not create " ++ tn ++ " with default value, using Toggle"])

/-- A declared field type: either already a type object or a forward
reference string to be resolved against the loader's symbol table. -/
inductive FieldRef where
  | resolved : FieldType → FieldRef
  | strName : String → FieldRef

/-- One field of the schema (lines 469-579): a string type is resolved
against `loaded_classes`; an unresolved string has no `__name__`, so it
falls to the final `else` (line 579), a `Toggle(True)`. -/
def synthOneField (loaded : List (String × FieldType)) : FieldRef → OptValue × List String
  | .resolved ft => createFieldOption ft
  | .strName s =>
    match loaded.find? (fun p => p.1 = s) with
    | some p => createFieldOption p.2
    | none => (.toggle true, [])

/-- A game class as seen by `create_smart_options`: `none` models a class
with no `options_cls` attribute or whose `options_cls` has no
`__dataclass_fields__` (both return `None`, lines 456-462). -/
structure GameClass where
  options_fields : Option (List (String × FieldRef))

/-- The synthesizer `create_smart_options` (lines 453-585): synthesizes one option value per
declared field and returns the populated options object (modelled as the
field-name/value association), plus the warnings printed on the way.  The
final `options_cls(**options_dict)` call constructs a dataclass from exactly
its own declared fields and is modelled as succeeding. -/
def create_smart_options (gc : GameClass) (loaded : List (String × FieldType)) :
    Option (List (String × OptValue)) × List String :=
  match gc.options_fields with
  | none => (none, [])
  | some fields =>
    let res := fields.map (fun p => (p.1, synthOneField loaded p.2))
    (some (res.map fun q => (q.1, q.2.1)), res.flatMap fun q => q.2.2)

/- ### Primary class selection in the loader (`load_game_from_file`,
   lines 431-446)

   The file-system and import machinery is outside the model; a member of
   the executed module is modelled by what the selection inspects:
   its binding name (the first component of an `inspect.getmembers` pair),
   whether it is a class, and whether it exposes `name` /
   `game_objective_templates` attributes. -/

structure ModuleMember where
  memberName : String
  isClass : Bool
  hasNameAttr : Bool
  hasTemplatesAttr : Bool
deriving DecidableEq

/-- The structural qualification test of line 434. -/
def qualifiesGame (c : ModuleMember) : Bool :=
  c.isClass && (pyEndsWith c.memberName "Game" || c.hasTemplatesAttr) && c.hasNameAttr

/-- Lexicographic comparison of character lists by code point — Python's
string `<=`, which `list.sort` uses when CPython sorts the member pairs of
`inspect.getmembers` by name. -/
def charListLe : List Char → List Char → Bool
  | [], _ => true
  | _ :: _, [] => false
  | a :: as, b :: bs =>
    if a.toNat < b.toNat then true
    else if b.toNat < a.toNat then false
    else charListLe as bs

/-- Python string `a <= b`. -/
def pyStrLe (a b : String) : Bool := charListLe a.data b.data

theorem charListLe_refl : ∀ l : List Char, charListLe l l = true
  | [] => rfl
  | a :: as => by
    simp only [charListLe]
    rw [if_neg (by omega), if_neg (by omega)]
    exact charListLe_refl as

theorem charListLe_total : ∀ l₁ l₂ : List Char,
    charListLe l₁ l₂ = true ∨ charListLe l₂ l₁ = true
  | [], _ => .inl rfl
  | _ :: _, [] => .inr rfl
  | a :: as, b :: bs => by
    simp only [charListLe]
    rcases Nat.lt_trichotomy a.toNat b.toNat with h | h | h
    · left
      rw [if_pos h]
    · rw [if_neg (by omega), if_neg (by omega), if_neg (by omega), if_neg (by omega)]
      exact charListLe_total as bs
    · right
      rw [if_pos h]

theorem charListLe_trans : ∀ l₁ l₂ l₃ : List Char,
    charListLe l₁ l₂ = true → charListLe l₂ l₃ = true → charListLe l₁ l₃ = true
  | [], _, _, _, _ => rfl
  | _ :: _, [], _, h, _ => by simp [charListLe] at h
  | _ :: _, _ :: _, [], _, h₂ => by simp [charListLe] at h₂
  | a :: as, b :: bs, c :: cs, h, h₂ => by
    simp only [charListLe] at h h₂ ⊢
    rcases Nat.lt_trichotomy a.toNat b.toNat with hab | hab | hab
    · rcases Nat.lt_trichotomy b.toNat c.toNat with hbc | hbc | hbc
      · rw [if_pos (by omega)]
      · rw [if_pos (by omega)]
      · rw [if_neg (by omega), if_pos hbc] at h₂
        cases h₂
    · rcases Nat.lt_trichotomy b.toNat c.toNat with hbc | hbc | hbc
      · rw [if_pos (by omega)]
      · rw [if_neg (by omega), if_neg (by omega)]
        rw [if_neg (by omega), if_neg (by omega)] at h h₂
        exact charListLe_trans as bs cs h h₂
      · rw [if_neg (by omega), if_pos hbc] at h₂
        cases h₂
    · rw [if_neg (by omega), if_pos hab] at h
      cases h

theorem charListLe_antisymm : ∀ l₁ l₂ : List Char,
    charListLe l₁ l₂ = true → charListLe l₂ l₁ = true → l₁ = l₂
  | [], [], _, _ => rfl
  | [], _ :: _, _, h₂ => by simp [charListLe] at h₂
  | _ :: _, [], h, _ => by simp [charListLe] at h
  | a :: as, b :: bs, h, h₂ => by
    simp only [charListLe] at h h₂
    rcases Nat.lt_trichotomy a.toNat b.toNat with hab | hab | hab
    · rw [if_neg (by omega), if_pos hab] at h₂
      cases h₂
    · rw [if_neg (by omega), if_neg (by omega)] at h h₂
      have hval : a = b := Char.ext (UInt32.toNat.inj hab)
      rw [hval, charListLe_antisymm as bs h h₂]
    · rw [if_neg (by omega), if_pos hab] at h
      cases h

theorem pyStrLe_antisymm (a b : String) (h : pyStrLe a b = true)
    (h₂ : pyStrLe b a = true) : a = b := by
  cases a with
  | mk da =>
    cases b with
    | mk db =>
      have := charListLe_antisymm da db h h₂
      rw [this]

def memberLe (a b : ModuleMember) : Prop := pyStrLe a.memberName b.memberName = true

instance : DecidableRel memberLe :=
  fun a b => inferInstanceAs (Decidable (pyStrLe a.memberName b.memberName = true))

instance : IsTotal ModuleMember memberLe :=
  ⟨fun a b => charListLe_total a.memberName.data b.memberName.data⟩

instance : IsTrans ModuleMember memberLe :=
  ⟨fun a b c h h' => charListLe_trans a.memberName.data b.memberName.data
    c.memberName.data h h'⟩

/-- CPython `inspect.getmembers` returns the module's members sorted by name
(CPython sorts the pairs by their first component). -/
def getmembers (ms : List ModuleMember) : List ModuleMember := ms.insertionSort memberLe

/-- The class-selection portion of `load_game_from_file` (lines 431-446):
collect the qualifying classes in `getmembers` order and return the first,
or `None` when there is none. -/
def load_game_from_file (ms : List ModuleMember) : Option ModuleMember :=
  ((getmembers ms).filter qualifiesGame).head?

/- ### Helper lemmas: substring containment -/

theorem containsAux_infix_iff (pat : List Char) :
    ∀ l : List Char, containsAux pat l = true ↔ pat <:+: l := by
  intro l
  induction l with
  | nil =>
    simp only [containsAux, List.isEmpty_iff, List.infix_nil]
  | cons c rest ih =>
    simp only [containsAux, Bool.or_eq_true, List.isPrefixOf_iff_prefix, ih,
      List.infix_cons_iff]

/-- Boolean `strContains hay pat = true` is exactly substring containment. -/
theorem strContains_infix_iff (hay pat : String) :
    strContains hay pat = true ↔ pat.data <:+: hay.data :=
  containsAux_infix_iff pat.data hay.data

/-- If `mid` does not occur in `hay` and `mid` occurs in `big`, then `big`
does not occur in `hay`. -/
theorem strContains_false_of_sub (hay big mid : String)
    (hsub : strContains big mid = true) (h : strContains hay mid = false) :
    strContains hay big = false := by
  by_contra hb
  have hb' : strContains hay big = true := by
    cases hx : strContains hay big with
    | false => exact absurd hx hb
    | true => rfl
  have h1 : mid.data <:+: big.data := (strContains_infix_iff big mid).mp hsub
  have h2 : big.data <:+: hay.data := (strContains_infix_iff hay big).mp hb'
  have h3 : mid.data <:+: hay.data := h1.trans h2
  rw [(strContains_infix_iff hay mid).mpr h3] at h
  cases h

/- ### Helper lemmas: the weighted pool -/

theorem buildPoolFrom_fst_ge :
    ∀ (ts : List PyTemplate) (n : Nat) (e : Nat × PyTemplate),
      e ∈ buildPoolFrom n ts → n ≤ e.1
  | [], _, _, h => absurd h (by simp [buildPoolFrom])
  | a :: rest, n, e, h => by
    simp only [buildPoolFrom, List.mem_append] at h
    rcases h with h | h
    · have := List.eq_of_mem_replicate h
      subst this
      exact le_refl n
    · have := buildPoolFrom_fst_ge rest (n + 1) e h
      omega

theorem buildPoolFrom_mem_snd :
    ∀ (ts : List PyTemplate) (n : Nat) (e : Nat × PyTemplate),
      e ∈ buildPoolFrom n ts → e.2 ∈ ts
  | [], _, _, h => absurd h (by simp [buildPoolFrom])
  | a :: rest, n, e, h => by
    simp only [buildPoolFrom, List.mem_append] at h
    rcases h with h | h
    · have := List.eq_of_mem_replicate h
      subst this
      exact List.mem_cons_self a rest
    · exact List.mem_cons_of_mem a (buildPoolFrom_mem_snd rest (n + 1) e h)

theorem buildPoolFrom_countP :
    ∀ (ts : List PyTemplate) (n j : Nat) (t : PyTemplate), ts[j]? = some t →
      (buildPoolFrom n ts).countP (fun e => e.1 == n + j) = weightCopies t
  | [], n, j, t, h => by simp at h
  | a :: rest, n, 0, t, h => by
    have ht : a = t := by simpa using h
    subst ht
    simp only [buildPoolFrom, List.countP_append]
    have h0 : (buildPoolFrom (n + 1) rest).countP (fun e => e.1 == n + 0) = 0 := by
      rw [List.countP_eq_zero]
      intro e he hbe
      have h1 : n + 1 ≤ e.1 := buildPoolFrom_fst_ge rest (n + 1) e he
      have h2 : e.1 = n := by simpa using hbe
      omega
    rw [h0, List.countP_replicate]
    simp
  | a :: rest, n, j + 1, t, h => by
    have ht : rest[j]? = some t := by simpa using h
    simp only [buildPoolFrom, List.countP_append]
    have h0 : (List.replicate (weightCopies a) (n, a)).countP
        (fun e => e.1 == n + (j + 1)) = 0 := by
      rw [List.countP_replicate]
      simp only [beq_iff_eq]
      split
      · omega
      · rfl
    rw [h0]
    have hrec := buildPoolFrom_countP rest (n + 1) j t ht
    have harith : n + 1 + j = n + (j + 1) := by omega
    rw [harith] at hrec
    simpa using hrec

theorem getD_mod_mem {α : Type} (l : List α) (hne : l ≠ []) (i : Nat) (d : α) :
    l.getD (i % l.length) d ∈ l := by
  have hlen : 0 < l.length := List.length_pos.mpr hne
  have hi : i % l.length < l.length := Nat.mod_lt _ hlen
  rw [List.getD_eq_getElem?_getD, List.getElem?_eq_getElem hi]
  exact List.getElem_mem hi

/- ### Helper lemmas: the sampling loop -/

theorem loopGen_length (g : Nat → Nat) (tsLen : Nat) (pool : List (Nat × PyTemplate))
    (count : Nat) :
    ∀ (fuel pos : Nat) (used : List Nat) (selected : List ObjRecord) (attempts : Nat),
      selected.length ≤ count →
      ((loopGen g tsLen pool count fuel pos used selected attempts).1).length ≤ count
  | 0, _, _, _, _, h => h
  | fuel + 1, pos, used, selected, attempts, h => by
    simp only [loopGen]
    split
    next hsel =>
      split
      · exact loopGen_length g tsLen pool count fuel _ _ _ _ h
      · split
        · exact loopGen_length g tsLen pool count fuel _ _ _ _ h
        · refine loopGen_length g tsLen pool count fuel _ _ _ _ ?_
          simp only [List.length_append, List.length_singleton]
          omega
    next => exact h

theorem loopGen_attempts (g : Nat → Nat) (tsLen : Nat) (pool : List (Nat × PyTemplate))
    (count : Nat) :
    ∀ (fuel pos : Nat) (used : List Nat) (selected : List ObjRecord) (attempts : Nat),
      (loopGen g tsLen pool count fuel pos used selected attempts).2 ≤ attempts + fuel
  | 0, _, _, _, attempts => Nat.le_refl attempts
  | fuel + 1, pos, used, selected, attempts => by
    simp only [loopGen]
    split
    · split
      · exact Nat.le_trans
          (loopGen_attempts g tsLen pool count fuel _ _ _ (attempts + 1)) (by omega)
      · split
        · exact Nat.le_trans
            (loopGen_attempts g tsLen pool count fuel _ _ _ (attempts + 1)) (by omega)
        · exact Nat.le_trans
            (loopGen_attempts g tsLen pool count fuel _ _ _ (attempts + 1)) (by omega)
    · omega

/-- Every record produced by the loop either was already in the accumulator
or originates from a pool entry whose full data dict was substituted
successfully. -/
theorem loopGen_records (g : Nat → Nat) (tsLen : Nat) (pool : List (Nat × PyTemplate))
    (count : Nat) (hpool : pool ≠ []) :
    ∀ (fuel pos : Nat) (used : List Nat) (selected : List ObjRecord) (attempts : Nat)
      (r : ObjRecord),
      r ∈ (loopGen g tsLen pool count fuel pos used selected attempts).1 →
      r ∈ selected ∨ ∃ t, t ∈ pool.map Prod.snd ∧ ∃ pos₀ pos₁ lbl,
        substData g pos₀ t.label t.data = (pos₁, some lbl) ∧ r = mkRecord t lbl
  | 0, _, _, _, _, _, hr => .inl hr
  | fuel + 1, pos, used, selected, attempts, r, hr => by
    simp only [loopGen] at hr
    split at hr
    next hsel =>
      split at hr
      · exact loopGen_records g tsLen pool count hpool fuel _ _ _ _ r hr
      · split at hr
        · exact loopGen_records g tsLen pool count hpool fuel _ _ _ _ r hr
        next pos₂ lbl heq =>
          rcases loopGen_records g tsLen pool count hpool fuel _ _ _ _ r hr with h | h
          · rcases List.mem_append.mp h with h' | h'
            · exact .inl h'
            · right
              have hmem : pool.getD (g pos % pool.length) (0, dummyTemplate) ∈ pool :=
                getD_mod_mem pool hpool (g pos) (0, dummyTemplate)
              refine ⟨(pool.getD (g pos % pool.length) (0, dummyTemplate)).2,
                List.mem_map_of_mem Prod.snd hmem, pos + 1, pos₂, lbl, heq, ?_⟩
              simpa using h'
          · exact .inr h
    next => exact .inl hr

/-- Every record returned by `generate_dynamic_objectives` originates from a
template of the input list whose entire data dict was substituted
successfully (aborted templates contribute nothing, and the record's fields
are exactly those recorded from its template). -/
theorem generate_records (g : Nat → Nat) (ts : List PyTemplate) (count : Nat)
    (r : ObjRecord) (hr : r ∈ generate_dynamic_objectives g ts count) :
    ∃ t, t ∈ ts ∧ ∃ pos₀ pos₁ lbl,
      substData g pos₀ t.label t.data = (pos₁, some lbl) ∧ r = mkRecord t lbl := by
  simp only [generate_dynamic_objectives, generateStats] at hr
  split at hr
  · simp at hr
  · split at hr
    · simp at hr
    next hpool =>
      have hpool' : buildPool ts ≠ [] := by
        intro hnil
        rw [hnil] at hpool
        simp at hpool
      rcases loopGen_records g ts.length (buildPool ts) count hpool'
          (count * 10) 0 [] [] 0 r hr with h | h
      · simp at h
      · rcases h with ⟨t, htp, pos₀, pos₁, lbl, hs, hrec⟩
        rcases List.mem_map.mp htp with ⟨e, he, hsnd⟩
        exact ⟨t, hsnd ▸ buildPoolFrom_mem_snd ts 0 e he, pos₀, pos₁, lbl, hs, hrec⟩

/- ### Concrete inputs used by counterexamples and witnesses -/

/-- A random oracle that always draws index 0. -/
def zeroOracle : Nat → Nat := fun _ => 0

/-- A template whose single placeholder source yields the placeholder token
itself: the substituted label is then identical to the raw template label. -/
def echoTemplate : PyTemplate :=
  ⟨"Win X matches", [("X", .vCallable "src" (some (.vList [.vStr "X"])))], none, false, false⟩

/-- A template whose placeholder source returns an empty list. -/
def emptySourceTemplate : PyTemplate :=
  ⟨"Collect X", [("X", .vCallable "give_nothing" (some (.vList [])))], none, false, false⟩

/-- A template whose placeholder source raises when invoked. -/
def raisingTemplate : PyTemplate :=
  ⟨"Do X", [("X", .vCallable "boom" none)], none, false, false⟩

/-- The scenario template of spec §8: label `"Win X matches"`, one
placeholder drawing from `[1, 2, 3]`, weight 5. -/
def winxTemplate : PyTemplate :=
  ⟨"Win X matches",
   [("X", .vCallable "matches" (some (.vList [.vInt 1, .vInt 2, .vInt 3])))],
   some (.vInt 5), false, false⟩

/-- A template whose `weight` attribute holds a string. -/
def badWeightTemplate : PyTemplate :=
  ⟨"Survive", [], some (.vStr "heavy"), false, false⟩

theorem substData_winx (g : Nat → Nat) (pos : Nat) :
    substData g pos winxTemplate.label winxTemplate.data
      = (pos + 1, some (pyReplace "Win X matches" "X"
          (pyStr ([PyVal.vInt 1, PyVal.vInt 2, PyVal.vInt 3].getD (g pos % 3) PyVal.vNone)))) :=
  rfl

/- ### Claim C1 -/

/-- Claim C1 as stated is false: with the template `echoTemplate`, whose
placeholder source yields the string `"X"`, the sampler emits a record whose
label is the unchanged `"Win X matches"` — the placeholder token `X` of the
originating template's data mapping still occurs in the emitted label, yet
the record is emitted rather than dropped. -/
theorem claim_C1_counterexample :
    (generate_dynamic_objectives zeroOracle [echoTemplate] 1).map ObjRecord.label
        = ["Win X matches"]
      ∧ ("X", PyVal.vCallable "src" (some (.vList [.vStr "X"]))) ∈ echoTemplate.data
      ∧ strContains "Win X matches" "X" = true := by
  refine ⟨rfl, ?_, rfl⟩
  simp [echoTemplate]

/-- Claim C1, amended: every record emitted by the sampler originates from a
template of the input list whose data mapping was processed in full — each
placeholder key was substituted in order (`substData` succeeds only after
consuming every key), and a template whose substitution raises is dropped
without emitting any partial record.  The emitted label may however still
contain a placeholder token when a substituted value itself contains one,
which is the only amendment forced by the counterexample. -/
theorem claim_C1_amended (g : Nat → Nat) (ts : List PyTemplate) (count : Nat)
    (r : ObjRecord) (hr : r ∈ generate_dynamic_objectives g ts count) :
    ∃ t, t ∈ ts ∧ ∃ pos₀ pos₁ lbl,
      substData g pos₀ t.label t.data = (pos₁, some lbl) ∧ r = mkRecord t lbl :=
  generate_records g ts count r hr

theorem claim_C1_witness :
    ∃ t, t ∈ [echoTemplate] ∧ ∃ pos₀ pos₁ lbl,
      substData zeroOracle pos₀ t.label t.data = (pos₁, some lbl)
        ∧ mkRecord echoTemplate "Win X matches" = mkRecord t lbl :=
  claim_C1_amended zeroOracle [echoTemplate] 1 (mkRecord echoTemplate "Win X matches")
    (by
      have h : generate_dynamic_objectives zeroOracle [echoTemplate] 1
          = [mkRecord echoTemplate "Win X matches"] := rfl
      rw [h]
      exact List.mem_singleton_self _)

/- ### Claim C3 -/

/-- Claim C3 as stated is false: a placeholder whose data source evaluates
to an empty list does not abort the template.  The sampler substitutes the
string `"[]"` (Python's `str([])`) and emits the record, which counts toward
the requested N. -/
theorem claim_C3_counterexample :
    generateStats zeroOracle [emptySourceTemplate] 1
        = ([mkRecord emptySourceTemplate "Collect []"], 1)
      ∧ (generate_dynamic_objectives zeroOracle [emptySourceTemplate] 1).length = 1 :=
  ⟨rfl, rfl⟩

theorem loopGen_fail_all (g : Nat → Nat) (tsLen : Nat) (t : PyTemplate) (count : Nat)
    (hfail : ∀ pos, (substData g pos t.label t.data).2 = none) (hcount : 0 < count) :
    ∀ (fuel pos attempts : Nat),
      loopGen g tsLen [(0, t)] count fuel pos [] [] attempts = ([], attempts + fuel)
  | 0, _, _ => rfl
  | fuel + 1, pos, attempts => by
    have hget : [(0, t)].getD (g pos % [(0, t)].length) (0, dummyTemplate) = (0, t) := by
      simp [Nat.mod_one]
    obtain ⟨p₁, hp⟩ : ∃ p, substData g (pos + 1) t.label t.data = (p, none) := by
      rcases hx : substData g (pos + 1) t.label t.data with ⟨p₁, v⟩
      have hv := hfail (pos + 1)
      rw [hx] at hv
      simp only at hv
      exact ⟨p₁, by rw [← hv]⟩
    simp only [loopGen, hget]
    rw [if_pos (by simpa using hcount), if_neg (by simp)]
    simp only [hp]
    rw [loopGen_fail_all g tsLen t count hfail hcount fuel p₁ (attempts + 1)]
    congr 1
    omega

/-- Claim C3, amended: a template's substitution is aborted — discarded with
no record, while the attempts counter still increments — exactly when
evaluating a placeholder raises an exception; an empty or falsy collection
does not abort (the placeholder is substituted with a fallback string and
the record is emitted, as the counterexample shows).  For a template whose
substitution always raises, every one of the `10×N` attempts is consumed and
no record is produced. -/
theorem claim_C3_amended (g : Nat → Nat) (count : Nat) (t : PyTemplate)
    (hweight : t.weight = none)
    (hfail : ∀ pos, (substData g pos t.label t.data).2 = none) :
    generateStats g [t] count = ([], count * 10) := by
  have hpool : buildPool [t] = [(0, t)] := by
    simp [buildPool, buildPoolFrom, weightCopies, hweight]
  simp only [generateStats]
  rw [if_neg (by simp), hpool, if_neg (by simp)]
  cases count with
  | zero => rfl
  | succ n =>
    rw [loopGen_fail_all g [t].length t (n + 1) hfail (Nat.succ_pos n) ((n + 1) * 10) 0 0]
    congr 1
    omega

theorem claim_C3_witness :
    generateStats zeroOracle [raisingTemplate] 2 = ([], 20) :=
  claim_C3_amended zeroOracle 2 raisingTemplate rfl (fun _ => rfl)

/- ### Claim C4 -/

/-- Claim C4: a template at position `i` with integer weight `w ≥ 1`
contributes exactly `w` entries referring to it to the weighted pool;
the scenario template (weight 5, source `[1, 2, 3]`) expands to exactly 5
identical pool entries, and every sample accepted from it — under any
random oracle and any requested count — has one of the three fully
substituted labels. -/
theorem claim_C4 :
    (∀ (ts : List PyTemplate) (i : Nat) (t : PyTemplate) (w : Nat),
        ts[i]? = some t → t.weight = some (.vInt (w : Int)) → 1 ≤ w →
        (buildPool ts).countP (fun e => e.1 == i) = w)
      ∧ buildPool [winxTemplate] = List.replicate 5 (0, winxTemplate)
      ∧ (∀ (g : Nat → Nat) (count : Nat) (r : ObjRecord),
          r ∈ generate_dynamic_objectives g [winxTemplate] count →
          r.label = "Win 1 matches" ∨ r.label = "Win 2 matches"
            ∨ r.label = "Win 3 matches") := by
  refine ⟨?_, rfl, ?_⟩
  · intro ts i t w hts hw _
    unfold buildPool
    have hc := buildPoolFrom_countP ts 0 i t hts
    rw [Nat.zero_add] at hc
    rw [hc]
    unfold weightCopies
    rw [hw]
    simp
  · intro g count r hr
    rcases generate_records g [winxTemplate] count r hr with
      ⟨t, ht, pos₀, pos₁, lbl, hs, hrec⟩
    have ht' : t = winxTemplate := by simpa using ht
    subst ht'
    rw [substData_winx] at hs
    have hlbl : lbl = pyReplace "Win X matches" "X"
        (pyStr ([PyVal.vInt 1, PyVal.vInt 2, PyVal.vInt 3].getD (g pos₀ % 3) PyVal.vNone)) := by
      have h2 := congrArg Prod.snd hs
      simpa using h2.symm
    have hrl : r.label = lbl := by rw [hrec]; rfl
    have hk : g pos₀ % 3 < 3 := Nat.mod_lt _ (by omega)
    have h3 : g pos₀ % 3 = 0 ∨ g pos₀ % 3 = 1 ∨ g pos₀ % 3 = 2 := by omega
    rcases h3 with h | h | h
    · left
      rw [hrl, hlbl, h]
      decide
    · right; left
      rw [hrl, hlbl, h]
      decide
    · right; right
      rw [hrl, hlbl, h]
      decide

theorem claim_C4_witness :
    (buildPool [winxTemplate]).countP (fun e => e.1 == 0) = 5
      ∧ ((mkRecord winxTemplate "Win 2 matches").label = "Win 1 matches"
          ∨ (mkRecord winxTemplate "Win 2 matches").label = "Win 2 matches"
          ∨ (mkRecord winxTemplate "Win 2 matches").label = "Win 3 matches") := by
  constructor
  · exact claim_C4.1 [winxTemplate] 0 winxTemplate 5 rfl rfl (by omega)
  · refine claim_C4.2.2 (fun _ => 1) 1 (mkRecord winxTemplate "Win 2 matches") ?_
    have h : generate_dynamic_objectives (fun _ => 1) [winxTemplate] 1
        = [mkRecord winxTemplate "Win 2 matches"] := rfl
    rw [h]
    exact List.mem_singleton_self _

/- ### Claim C5 -/

/-- Claim C5: the sampler performs at most `10×N` draw attempts (the final
value of the `attempts` counter is bounded by `count * 10`; the loop is
fuel-bounded, hence total), and returns an ordered sequence of at most N
records; returning fewer than N is expressed by the bound itself and no
failure is possible (the function is total and returns the loop's
accumulated list). -/
theorem claim_C5 (g : Nat → Nat) (ts : List PyTemplate) (count : Nat) :
    (generate_dynamic_objectives g ts count).length ≤ count
      ∧ (generateStats g ts count).2 ≤ count * 10
      ∧ generate_dynamic_objectives g ts count = (generateStats g ts count).1 := by
  refine ⟨?_, ?_, rfl⟩
  · simp only [generate_dynamic_objectives, generateStats]
    split
    · simp
    · split
      · simp
      · exact loopGen_length g ts.length _ count (count * 10) 0 [] [] 0 (by simp)
  · simp only [generateStats]
    split
    · simp
    · split
      · simp
      · exact Nat.le_trans
          (loopGen_attempts g ts.length _ count (count * 10) 0 [] [] 0) (by omega)

/- ### Claim C7 -/

/-- Claim C7 as stated is false: a template whose `weight` attribute holds
the string `"heavy"` is not treated as weight 1 — `range("heavy")` raises
`TypeError`, the `except` skips the template, and it contributes zero pool
entries instead of one. -/
theorem claim_C7_counterexample :
    buildPool [badWeightTemplate] = []
      ∧ ¬ buildPool [badWeightTemplate] = [(0, badWeightTemplate)] := by
  constructor
  · rfl
  · intro h
    have h' : ([] : List (Nat × PyTemplate)) = [(0, badWeightTemplate)] :=
      (rfl : buildPool [badWeightTemplate] = []).symm.trans h
    simp at h'

/-- Claim C7, amended: a template with an absent `weight` attribute is
treated as weight 1 and appears exactly once in the pool; an integer weight
`n` yields `max n 0` copies; a non-integer weight (modelled by a string)
makes the pool expansion raise, so the template is skipped and contributes
zero copies. -/
theorem claim_C7_amended (t : PyTemplate) :
    (t.weight = none → buildPool [t] = [(0, t)])
      ∧ (∀ n : Int, t.weight = some (.vInt n) →
          buildPool [t] = List.replicate n.toNat (0, t))
      ∧ (∀ s : String, t.weight = some (.vStr s) → buildPool [t] = []) := by
  refine ⟨?_, ?_, ?_⟩
  · intro h
    simp [buildPool, buildPoolFrom, weightCopies, h]
  · intro n h
    simp [buildPool, buildPoolFrom, weightCopies, h]
  · intro s h
    simp [buildPool, buildPoolFrom, weightCopies, h]

theorem claim_C7_witness :
    buildPool [emptySourceTemplate] = [(0, emptySourceTemplate)]
      ∧ buildPool [badWeightTemplate] = [] :=
  ⟨(claim_C7_amended emptySourceTemplate).1 rfl,
   (claim_C7_amended badWeightTemplate).2.2 "heavy" rfl⟩

/- ### Claim C2 -/

/-- A game instance with two public attributes both containing
`"relationship"`: the feature scan appends the same tag twice. -/
def featureDupGame : GameInstance :=
  { templates := []
    attrs := [("relationship_a", .vNone), ("relationship_b", .vNone)]
    archipelago_options := none }

/-- Claim C2 as stated is false: the complexity score is computed from the
feature list before deduplication.  `featureDupGame` has two attributes that
both yield the tag `"Relationship System"`, so the score is
`0 + 2·0 + 3·2 + 0 = 6`, while the formula over the report's (distinct)
feature set predicts `0 + 2·0 + 3·1 + 0 = 3`. -/
theorem claim_C2_counterexample :
    (analyze_implementation featureDupGame).complexity_score = 6
      ∧ (analyze_implementation featureDupGame).features.length = 1
      ∧ (analyze_implementation featureDupGame).total_objectives = 0
      ∧ (analyze_implementation featureDupGame).data_sources.length = 0
      ∧ (analyze_implementation featureDupGame).categories.length = 0
      ∧ (6 : Nat) ≠ 0 + 2 * 0 + 3 * 1 + 0 :=
  ⟨rfl, rfl, rfl, rfl, rfl, by omega⟩

/-- Claim C2, amended: the complexity score equals
`total_objectives + 2·|distinct data sources| + 3·(number of
feature-matching public attributes, duplicates included) + (number of
option categories, duplicates included)`; the feature multiset is
deduplicated only in the report's `features` field, after the score is
computed. -/
theorem claim_C2_amended (gi : GameInstance) :
    (analyze_implementation gi).complexity_score
        = (analyze_implementation gi).total_objectives
          + 2 * (analyze_implementation gi).data_sources.length
          + 3 * (rawFeatures gi).length
          + (analyze_implementation gi).categories.length
      ∧ (analyze_implementation gi).features = (rawFeatures gi).dedup := by
  constructor
  · simp only [analyze_implementation]
    ring
  · rfl

/- ### Claim C6 -/

/-- A template whose data entry holds its callable bare, not wrapped in a
list or tuple. -/
def bareSourceTemplate : PyTemplate :=
  ⟨"Find X", [("X", .vCallable "fetch_items" (some (.vList [.vInt 1])))], none, false, false⟩

/-- The same data source wrapped the way the host framework does,
`(collection, count)`. -/
def wrappedSourceTemplate : PyTemplate :=
  ⟨"Find X",
   [("X", .vTuple [.vCallable "fetch_items" (some (.vList [.vInt 1])), .vInt 1])],
   none, false, false⟩

/-- Claim C6 as stated is false: a data entry whose descriptor is a bare
callable (not a list/tuple) contributes no identifier at all — the
analyzer's `isinstance(data_info, (list, tuple))` guard skips it, so the
identifier set stays empty although the template's data mapping has an
entry. -/
theorem claim_C6_counterexample :
    dataSourceIds [bareSourceTemplate] = []
      ∧ (analyze_implementation ⟨[bareSourceTemplate], [], none⟩).data_sources = []
      ∧ bareSourceTemplate.data.length = 1 :=
  ⟨rfl, rfl, rfl⟩

/-- Claim C6, amended: the analyzer's identifier set contains an identifier
for every data entry whose descriptor is a non-empty list or tuple — the
first element's callable name when it is callable, otherwise its runtime
type name; entries with any other descriptor shape contribute nothing. -/
theorem claim_C6_amended (ts : List PyTemplate) (t : PyTemplate) (ph : String)
    (x : PyVal) (xs : List PyVal) (ht : t ∈ ts)
    (hd : (ph, PyVal.vList (x :: xs)) ∈ t.data ∨ (ph, PyVal.vTuple (x :: xs)) ∈ t.data) :
    dataSourceId x ∈ dataSourceIds ts := by
  unfold dataSourceIds
  rw [List.mem_dedup, List.mem_flatMap]
  refine ⟨t, ht, ?_⟩
  unfold templateSourceIds
  rw [List.mem_filterMap]
  rcases hd with h | h
  · exact ⟨(ph, .vList (x :: xs)), h, rfl⟩
  · exact ⟨(ph, .vTuple (x :: xs)), h, rfl⟩

theorem claim_C6_witness :
    "fetch_items" ∈ dataSourceIds [wrappedSourceTemplate] :=
  claim_C6_amended [wrappedSourceTemplate] wrappedSourceTemplate "X"
    (.vCallable "fetch_items" (some (.vList [.vInt 1]))) [.vInt 1]
    (List.mem_singleton_self _) (.inr (List.mem_singleton_self _))

/- ### Claim C8 -/

/-- A type that declares numeric range bounds but has no default and no
kind-matching name: the synthesizer never consults its bounds. -/
def boundsOnlyType : FieldType :=
  { name := "Bounds", range_start := some 0, range_end := some 100
    default := none, attrs := [], construct := fun v => some v }

/-- The scenario type of spec §8: a custom range type with bounds `[0,100]`
and declared default `42`. -/
def scenarioRangeType : FieldType :=
  { name := "PointsRange", range_start := some 0, range_end := some 100
    default := some (.vInt 42), attrs := [], construct := fun v => some v }

/-- A range-named type declaring bounds 1..10 with no default. -/
def midRangeType : FieldType :=
  { name := "SomeRange", range_start := some 1, range_end := some 10
    default := none, attrs := [], construct := fun v => some v }

/-- A bounds-and-default type whose name does not contain any option kind. -/
def customDefaultType : FieldType :=
  { name := "MaxLevel", range_start := some 1, range_end := some 9
    default := some (.vInt 3), attrs := [], construct := fun _ => none }

/-- Claim C8 as stated is false: `boundsOnlyType` declares numeric range
bounds `[0,100]` and no default, yet the synthesizer does not produce the
midpoint 50 — since its name contains no recognized kind substring and it
has no `default` attribute, the generic path constructs the custom class
with the set `{"default"}` instead. -/
theorem claim_C8_counterexample :
    (createFieldOption boundsOnlyType).1 = .custom (.vSet [.vStr "default"])
      ∧ boundsOnlyType.range_start = some 0
      ∧ boundsOnlyType.range_end = some 100
      ∧ boundsOnlyType.default = none
      ∧ ¬ (createFieldOption boundsOnlyType).1 = .range 0 100 (.vInt 50) := by
  refine ⟨rfl, rfl, rfl, rfl, ?_⟩
  intro h
  have h' : OptValue.custom (.vSet [.vStr "default"]) = .range 0 100 (.vInt 50) :=
    (rfl : (createFieldOption boundsOnlyType).1 = .custom (.vSet [.vStr "default"])).symm.trans h
  cases h'

/-- Claim C8, amended: the declared-default-else-midpoint rule holds for the
fields the synthesizer actually routes through a `Range`: (1) a type whose
name contains `"Range"` (and no earlier kind substring) synthesizes its
declared default, (2) or, with no default, the floor midpoint
`(start + stop) // 2` of its declared bounds, defaulting to the fixed pair
`(1, 10)`; (3) a type with no kind-matching name but declared bounds and a
default synthesizes exactly that default; (4) in particular the scenario
type with bounds `[0,100]` and default `42` synthesizes exactly `42`.
A type that declares bounds but matches no kind name and has no default
falls through to the generic constructor path instead (the
counterexample). -/
theorem claim_C8_amended :
    (∀ (ft : FieldType) (d : PyVal),
        strContains ft.name "Range" = true → strContains ft.name "Toggle" = false →
        strContains ft.name "Choice" = false → ft.default = some d →
        createFieldOption ft
          = (.range (ft.range_start.getD 1) (ft.range_end.getD 10) d, []))
      ∧ (∀ ft : FieldType,
          strContains ft.name "Range" = true → strContains ft.name "Toggle" = false →
          strContains ft.name "Choice" = false → ft.default = none →
          createFieldOption ft
            = (.range (ft.range_start.getD 1) (ft.range_end.getD 10)
                (.vInt (Int.fdiv (ft.range_start.getD 1 + ft.range_end.getD 10) 2)), []))
      ∧ (∀ (ft : FieldType) (d : PyVal) (s e : Int),
          strContains ft.name "Toggle" = false → strContains ft.name "Choice" = false →
          strContains ft.name "Range" = false → strContains ft.name "OptionSet" = false →
          strContains ft.name "OptionList" = false →
          ft.default = some d → ft.range_start = some s → ft.range_end = some e →
          createFieldOption ft = (.range s e d, []))
      ∧ createFieldOption scenarioRangeType = (.range 0 100 (.vInt 42), []) := by
  refine ⟨?_, ?_, ?_, rfl⟩
  · intro ft d hR hT hC hd
    simp [createFieldOption, hR, hT, hC, hd]
  · intro ft hR hT hC hd
    simp [createFieldOption, hR, hT, hC, hd]
  · intro ft d s e hT hC hR hOS hOL hd hs he
    have hDOT : strContains ft.name "DefaultOnToggle" = false :=
      strContains_false_of_sub ft.name "DefaultOnToggle" "Toggle" rfl hT
    have hPR : strContains ft.name "PercentageRange" = false :=
      strContains_false_of_sub ft.name "PercentageRange" "Range" rfl hR
    have hNR : strContains ft.name "NamedRange" = false :=
      strContains_false_of_sub ft.name "NamedRange" "Range" rfl hR
    simp [createFieldOption, hT, hC, hR, hOS, hOL, hDOT, hPR, hNR, hd, hs, he]

theorem claim_C8_witness :
    createFieldOption midRangeType = (.range 1 10 (.vInt 5), [])
      ∧ createFieldOption customDefaultType = (.range 1 9 (.vInt 3), []) := by
  constructor
  · exact claim_C8_amended.2.1 midRangeType rfl rfl rfl rfl
  · exact claim_C8_amended.2.2.1 customDefaultType (.vInt 3) 1 9
      rfl rfl rfl rfl rfl rfl rfl rfl

/- ### Claim C9 -/

/-- A custom option type with a scalar default whose constructor always
raises. -/
def mysteryType : FieldType :=
  { name := "Mystery", range_start := none, range_end := none
    default := some (.vStr "x"), attrs := [], construct := fun _ => none }

/-- A custom option type with no default whose constructor always raises. -/
def widgetType : FieldType :=
  { name := "Widget", range_start := none, range_end := none
    default := none, attrs := [], construct := fun _ => none }

/-- Claim C9 as stated is false: when constructing `mysteryType` — a custom
type with a `default` attribute — fails, the fallback is
`OptionSet({"default"})`, not a boolean-true toggle.  (The never-raises part
of the claim holds; only the stated fallback value is wrong for this path.) -/
theorem claim_C9_counterexample :
    createFieldOption mysteryType
        = (.optionSet [.vStr "default"],
           ["Warning: Could not create Mystery with default value"])
      ∧ ¬ (createFieldOption mysteryType).1 = .toggle true := by
  refine ⟨rfl, ?_⟩
  intro h
  have h' : OptValue.optionSet [.vStr "default"] = .toggle true :=
    (rfl : (createFieldOption mysteryType).1 = .optionSet [.vStr "default"]).symm.trans h
  cases h'

/-- Claim C9, amended: option synthesis never raises — it is total, covering
every declared field — and a failing construction falls back with a
recorded warning: to `Toggle(True)` when the field's type has no `default`
attribute (the generic path), but to `OptionSet({"default"})` (or a
declared-bounds `Range`) when a custom default construction fails. -/
theorem claim_C9_amended :
    (∀ (gc : GameClass) (loaded : List (String × FieldType))
        (fields : List (String × FieldRef)), gc.options_fields = some fields →
        ∃ opts, (create_smart_options gc loaded).1 = some opts
          ∧ opts.length = fields.length)
      ∧ (∀ ft : FieldType,
          strContains ft.name "Toggle" = false → strContains ft.name "Choice" = false →
          strContains ft.name "Range" = false → strContains ft.name "OptionSet" = false →
          strContains ft.name "OptionList" = false → ft.default = none →
          (∀ v, ft.construct v = none) →
          createFieldOption ft
            = (.toggle true,
               ["Warning: Could not create " ++ ft.name
                  ++ " with default value, using Toggle"]))
      ∧ (∀ (ft : FieldType) (d : String),
          strContains ft.name "Toggle" = false → strContains ft.name "Choice" = false →
          strContains ft.name "Range" = false → strContains ft.name "OptionSet" = false →
          strContains ft.name "OptionList" = false →
          ft.default = some (.vStr d) → ft.range_start = none →
          (∀ v, ft.construct v = none) →
          createFieldOption ft
            = (.optionSet [.vStr "default"],
               ["Warning: Could not create " ++ ft.name ++ " with default value"])) := by
  refine ⟨?_, ?_, ?_⟩
  · intro gc loaded fields hf
    refine ⟨(fields.map (fun p => (p.1, synthOneField loaded p.2))).map
      (fun q => (q.1, q.2.1)), ?_, by simp⟩
    simp [create_smart_options, hf]
  · intro ft hT hC hR hOS hOL hd hfail
    have hDOT : strContains ft.name "DefaultOnToggle" = false :=
      strContains_false_of_sub ft.name "DefaultOnToggle" "Toggle" rfl hT
    have hPR : strContains ft.name "PercentageRange" = false :=
      strContains_false_of_sub ft.name "PercentageRange" "Range" rfl hR
    have hNR : strContains ft.name "NamedRange" = false :=
      strContains_false_of_sub ft.name "NamedRange" "Range" rfl hR
    simp [createFieldOption, hT, hC, hR, hOS, hOL, hDOT, hPR, hNR, hd, hfail]
  · intro ft d hT hC hR hOS hOL hd hs hfail
    have hDOT : strContains ft.name "DefaultOnToggle" = false :=
      strContains_false_of_sub ft.name "DefaultOnToggle" "Toggle" rfl hT
    have hPR : strContains ft.name "PercentageRange" = false :=
      strContains_false_of_sub ft.name "PercentageRange" "Range" rfl hR
    have hNR : strContains ft.name "NamedRange" = false :=
      strContains_false_of_sub ft.name "NamedRange" "Range" rfl hR
    simp [createFieldOption, hT, hC, hR, hOS, hOL, hDOT, hPR, hNR, hd, hs, hfail]

theorem claim_C9_witness :
    createFieldOption widgetType
        = (.toggle true,
           ["Warning: Could not create Widget with default value, using Toggle"])
      ∧ (∃ opts,
          (create_smart_options ⟨some [("speed", .resolved widgetType)]⟩ []).1 = some opts
            ∧ opts.length = 1) := by
  constructor
  · exact claim_C9_amended.2.1 widgetType rfl rfl rfl rfl rfl rfl (fun _ => rfl)
  · exact claim_C9_amended.1 ⟨some [("speed", .resolved widgetType)]⟩ []
      [("speed", .resolved widgetType)] rfl

/- ### Claim C10 -/

theorem filter_head?_spec {α : Type} (p : α → Bool) (l : List α) (q : α)
    (h : (l.filter p).head? = some q) : q ∈ l ∧ p q = true := by
  have hq : q ∈ l.filter p := by
    cases hl : l.filter p with
    | nil => rw [hl] at h; simp at h
    | cons a as =>
      rw [hl] at h
      have : a = q := by simpa using h
      rw [← this]
      exact List.mem_cons_self a as
  exact ⟨(List.mem_filter.mp hq).1, (List.mem_filter.mp hq).2⟩

theorem sorted_filter_head_min (p : ModuleMember → Bool) :
    ∀ l : List ModuleMember, l.Sorted memberLe →
      ∀ q, (l.filter p).head? = some q →
        ∀ c ∈ l, p c = true → pyStrLe q.memberName c.memberName = true := by
  intro l
  induction l with
  | nil =>
    intro _ q hq
    simp at hq
  | cons a rest ih =>
    intro hs q hq c hc hpc
    rw [List.sorted_cons] at hs
    by_cases hpa : p a
    · rw [List.filter_cons_of_pos hpa] at hq
      have hqa : a = q := by simpa using hq
      subst hqa
      rcases List.mem_cons.mp hc with rfl | hc'
      · exact charListLe_refl _
      · exact hs.1 c hc'
    · rw [List.filter_cons_of_neg (by simpa using hpa)] at hq
      rcases List.mem_cons.mp hc with rfl | hc'
      · exact absurd hpc (by simpa using hpa)
      · exact ih hs.2 q hq c hc' hpc

/-- What the loader's selection guarantees for a successful load: the
selected member qualifies, comes from the module, and its name is
alphabetically least among all qualifying members. -/
theorem load_props (ms : List ModuleMember) (q : ModuleMember)
    (h : load_game_from_file ms = some q) :
    qualifiesGame q = true ∧ q ∈ ms
      ∧ ∀ c ∈ ms, qualifiesGame c = true → pyStrLe q.memberName c.memberName = true := by
  unfold load_game_from_file at h
  have h1 := filter_head?_spec qualifiesGame (getmembers ms) q h
  have hsorted : List.Sorted memberLe (getmembers ms) :=
    List.sorted_insertionSort memberLe ms
  have hperm : List.Perm (getmembers ms) ms := List.perm_insertionSort memberLe ms
  refine ⟨h1.2, hperm.mem_iff.mp h1.1, ?_⟩
  intro c hc hqc
  exact sorted_filter_head_min qualifiesGame (getmembers ms) hsorted q h c
    (hperm.mem_iff.mpr hc) hqc

/-- A load that finds nothing means no member qualifies. -/
theorem load_none (ms : List ModuleMember) (h : load_game_from_file ms = none) :
    ∀ c ∈ ms, qualifiesGame c = false := by
  intro c hc
  unfold load_game_from_file at h
  rw [List.head?_eq_none_iff, List.filter_eq_nil_iff] at h
  have := h c (by rwa [getmembers, List.mem_insertionSort])
  simpa using this

/-- Claim C10: when a module defines several qualifying members (a class
with a `name` attribute whose name ends in `"Game"` or which has a
`game_objective_templates` attribute), the loader deterministically selects
the qualifying one whose binding name is alphabetically least; for
module-member lists that are permutations of each other with distinct
member names — as the members of one executed module always are — the same
member is selected. -/
theorem claim_C10 :
    (∀ (ms : List ModuleMember) (q : ModuleMember),
        load_game_from_file ms = some q →
        qualifiesGame q = true ∧ q ∈ ms
          ∧ ∀ c ∈ ms, qualifiesGame c = true →
              pyStrLe q.memberName c.memberName = true)
      ∧ (∀ ms₁ ms₂ : List ModuleMember, List.Perm ms₁ ms₂ →
          (ms₁.map ModuleMember.memberName).Nodup →
          load_game_from_file ms₁ = load_game_from_file ms₂) := by
  constructor
  · exact load_props
  · intro ms₁ ms₂ hp hnd
    cases h₁ : load_game_from_file ms₁ with
    | none =>
      cases h₂ : load_game_from_file ms₂ with
      | none => rfl
      | some q₂ =>
        have p₂ := load_props ms₂ q₂ h₂
        have hfalse := load_none ms₁ h₁ q₂ (hp.mem_iff.mpr p₂.2.1)
        rw [p₂.1] at hfalse
        cases hfalse
    | some q₁ =>
      cases h₂ : load_game_from_file ms₂ with
      | none =>
        have p₁ := load_props ms₁ q₁ h₁
        have hfalse := load_none ms₂ h₂ q₁ (hp.mem_iff.mp p₁.2.1)
        rw [p₁.1] at hfalse
        cases hfalse
      | some q₂ =>
        have p₁ := load_props ms₁ q₁ h₁
        have p₂ := load_props ms₂ q₂ h₂
        have hq₂₁ : q₂ ∈ ms₁ := hp.mem_iff.mpr p₂.2.1
        have hq₁₂ : q₁ ∈ ms₂ := hp.mem_iff.mp p₁.2.1
        have hle₁ := p₁.2.2 q₂ hq₂₁ p₂.1
        have hle₂ := p₂.2.2 q₁ hq₁₂ p₁.1
        have hname : q₁.memberName = q₂.memberName :=
          pyStrLe_antisymm _ _ hle₁ hle₂
        have : q₁ = q₂ :=
          List.inj_on_of_nodup_map hnd p₁.2.1 hq₂₁ hname
        rw [this]

def alphaMember : ModuleMember := ⟨"AlphaGame", true, true, false⟩

def zebraMember : ModuleMember := ⟨"ZebraGame", true, true, true⟩

def helperMember : ModuleMember := ⟨"Helper", true, false, true⟩

theorem claim_C10_witness :
    pyStrLe alphaMember.memberName zebraMember.memberName = true
      ∧ load_game_from_file [zebraMember, helperMember, alphaMember]
          = load_game_from_file [alphaMember, zebraMember, helperMember] := by
  constructor
  · exact (claim_C10.1 [zebraMember, helperMember, alphaMember] alphaMember rfl).2.2
      zebraMember (by simp) rfl
  · exact claim_C10.2 [zebraMember, helperMember, alphaMember]
      [alphaMember, zebraMember, helperMember] (by decide) (by decide)

end KmkTools
